import Mathlib

/-!
Shallow embedding of the `parser_sec` ingestion pipeline
(`src/main.py`, `src/store.py`, `src/run.py`, `src/structs.py`)
and proofs about its document combiner, chunker, metadata store and
orchestration logic.
-/

namespace SecPipeline

/-! ## Parse-tree model (BeautifulSoup-style, as produced by `XBRLParser.parse`)

A parsed document is a tree of element tags and text nodes.  `find_all`
walks all element descendants in document (preorder) order; `get_text`
concatenates all text descendants; `find('span')` is truthy iff some
element descendant is named `span`. -/

inductive Node where
  | elem (tag : String) (children : List Node)
  | text (s : String)

/-- Tag name of a node, as BeautifulSoup's `.name` (text nodes have none). -/
def Node.name : Node → Option String
  | .elem t _ => some t
  | .text _ => none

mutual

/-- All element nodes of a tree in document (preorder) order, the root
included: what `find_all` on the parsed soup iterates over. -/
def tagsIncl : Node → List Node
  | .text _ => []
  | .elem t cs => .elem t cs :: tagsList cs

/-- All element nodes of a forest in document order. -/
def tagsList : List Node → List Node
  | [] => []
  | n :: ns => tagsIncl n ++ tagsList ns

end

mutual

/-- Concatenated text content of a node: BeautifulSoup's `get_text()`. -/
def getText : Node → String
  | .text s => s
  | .elem _ cs => getTextList cs

/-- Concatenated text content of a forest. -/
def getTextList : List Node → String
  | [] => ""
  | n :: ns => getText n ++ getTextList ns

end

/-- Element descendants of a node, the node itself excluded: the search
space of `x.find(...)`. -/
def subTags : Node → List Node
  | .text _ => []
  | .elem _ cs => tagsList cs

/-- Truthiness of `x.find('span')`: some element descendant is a `span`. -/
def hasSpan (x : Node) : Bool :=
  (subTags x).any (fun t => t.name == some "span")

/-- The filter lambda of `main.py` line 100, embedded with Python
truthiness: `lambda x: (x.name == 'p' or 'div') and x.find('span')`.
Python's `a or b` evaluates to `a` when `a` is truthy and to `b`
otherwise, so `(x.name == 'p' or 'div')` is truthy iff the comparison
holds or the nonempty string literal `'div'` is truthy. -/
def tagFilter (x : Node) : Bool :=
  (decide (x.name = some "p") || decide ("div" ≠ "")) && hasSpan x

/-- Filter following the spec's words instead (§4.3 step 3): the tag is
paragraph-like or division-like AND the element contains a span. -/
def specTagFilter (x : Node) : Bool :=
  (decide (x.name = some "p") || decide (x.name = some "div")) && hasSpan x

/-! ## Document combiner (`combine_documents`, `main.py` lines 66-105) -/

/-- A langchain `Document`: a page content string with (here always empty)
metadata. -/
structure Document where
  page_content : String
  metadata : List (String × String)
deriving DecidableEq

/-- Outcome of `xbrl_parser.parse` on one on-disk file: a parse tree, or
one of the three exception shapes caught in `combine_documents`. -/
inductive ParseResult where
  | ok (doc : Node)
  | errXBRL
  | errIndex (msg : String)
  | errOther (msg : String)

/-- True on the successful-parse outcome. -/
def ParseResult.isOk : ParseResult → Bool
  | .ok _ => true
  | _ => false

/-- One file found by the `DirectoryLoader`: its source path (used in log
messages) together with what `xbrl_parser.parse` does on it. -/
structure SrcFile where
  source : String
  parse : ParseResult

/-- Severity of a log record. -/
inductive LogLevel where
  | info
  | warning
  | error
deriving DecidableEq

/-- One emitted log record. -/
structure LogEntry where
  level : LogLevel
  msg : String
deriving DecidableEq

/-- Extracted text of one successfully parsed file (`main.py` lines
100-101): the `get_text()` of every tag matching the filter lambda,
joined by single spaces. -/
def fileExtract (doc : Node) : String :=
  String.intercalate " " (((tagsIncl doc).filter tagFilter).map getText)

/-- Body of the inner loop of `combine_documents` for one file: on a
successful parse, append the file's extracted text to the accumulated
list; on each exception shape, skip the file and log as the
corresponding `except` branch does (lines 88-102). -/
def processFile (st : List String × List LogEntry) (f : SrcFile) :
    List String × List LogEntry :=
  match f.parse with
  | .ok doc => (st.1 ++ [fileExtract doc], st.2)
  | .errXBRL =>
      (st.1, st.2 ++ [⟨.warning,
        "Skipped document [" ++ f.source ++ "]: is not a XBRL document"⟩])
  | .errIndex m =>
      (st.1, st.2 ++ [⟨.warning,
        "Skipped document [" ++ f.source ++ "]: is not a valid XBRL document. " ++ m⟩])
  | .errOther _ =>
      (st.1, st.2 ++ [⟨.error,
        "Failed to parse document [" ++ f.source ++ "]"⟩])

/-- The embedding of `combine_documents` (`main.py` lines 66-105).  Each
input directory is the list of files its `DirectoryLoader` enumerates;
the nested loops accumulate `xbrl_texts` and the emitted log records,
and the result wraps `'\n\n'.join(xbrl_texts)` in a `Document` with
empty metadata. -/
def combine_documents (dir_paths : List (List SrcFile)) :
    Document × List LogEntry :=
  let acc := dir_paths.foldl (fun st docs => docs.foldl processFile st) ([], [])
  ({ page_content := String.intercalate "\n\n" acc.1, metadata := [] }, acc.2)

/-- Contribution of one file to `xbrl_texts`: its extracted text when it
parses, nothing when it is skipped. -/
def extractOk (f : SrcFile) : Option String :=
  match f.parse with
  | .ok d => some (fileExtract d)
  | _ => none

/-- Log records one file produces in `combine_documents`. -/
def fileLog (f : SrcFile) : List LogEntry :=
  match f.parse with
  | .ok _ => []
  | .errXBRL => [⟨.warning,
      "Skipped document [" ++ f.source ++ "]: is not a XBRL document"⟩]
  | .errIndex m => [⟨.warning,
      "Skipped document [" ++ f.source ++ "]: is not a valid XBRL document. " ++ m⟩]
  | .errOther _ => [⟨.error,
      "Failed to parse document [" ++ f.source ++ "]"⟩]

/-! ## Loop characterisation of the combiner -/

lemma foldl_processFile (files : List SrcFile) (ts : List String)
    (ls : List LogEntry) :
    files.foldl processFile (ts, ls) =
      (ts ++ files.filterMap extractOk, ls ++ files.flatMap fileLog) := by
  induction files generalizing ts ls with
  | nil => simp
  | cons f fs ih =>
      cases hp : f.parse <;>
        simp [processFile, extractOk, fileLog, hp, ih]

lemma combine_loop_eq (dirs : List (List SrcFile)) (ts : List String)
    (ls : List LogEntry) :
    dirs.foldl (fun st docs => docs.foldl processFile st) (ts, ls) =
      (ts ++ dirs.flatten.filterMap extractOk,
       ls ++ dirs.flatten.flatMap fileLog) := by
  induction dirs generalizing ts ls with
  | nil => simp
  | cons d ds ih =>
      simp [List.foldl_cons, foldl_processFile, ih]

lemma combine_documents_eq (dirs : List (List SrcFile)) :
    combine_documents dirs =
      ({ page_content :=
          String.intercalate "\n\n" (dirs.flatten.filterMap extractOk),
         metadata := [] },
       dirs.flatten.flatMap fileLog) := by
  simp [combine_documents, combine_loop_eq]

lemma filterMap_extractOk_filter (fs : List SrcFile) :
    (fs.filter (fun f => f.parse.isOk)).filterMap extractOk =
      fs.filterMap extractOk := by
  induction fs with
  | nil => rfl
  | cons f fs ih =>
      have hok : extractOk f = none ∨
          ∃ d, f.parse = .ok d ∧ extractOk f = some (fileExtract d) := by
        cases hp : f.parse <;> simp [extractOk, hp]
      rcases hok with hnone | ⟨d, hp, hsome⟩
      · have h1 : f.parse.isOk = false := by
          cases hp : f.parse <;> simp [extractOk, hp] at hnone ⊢ <;>
            simp [ParseResult.isOk]
        simp only [List.filter_cons, h1, List.filterMap_cons, hnone,
          Bool.false_eq_true, if_false, ih]
      · have h1 : f.parse.isOk = true := by rw [hp]; rfl
        simp only [List.filter_cons, h1, if_true, List.filterMap_cons,
          hsome, ih]

lemma flatten_map_filter {α : Type} (p : α → Bool) (l : List (List α)) :
    (l.map (List.filter p)).flatten = l.flatten.filter p := by
  induction l with
  | nil => rfl
  | cons d ds ih =>
      rw [List.map_cons, List.flatten_cons, List.flatten_cons,
        List.filter_append, ih]

/-! ## Example documents used as concrete inputs -/

/-- A table cell holding a span: not a paragraph and not a division. -/
def tdSpanNode : Node := .elem "td" [.elem "span" [.text "x"]]

/-- A parsed document whose only span sits inside a `td` element. -/
def tdDoc : Node := .elem "html" [tdSpanNode]

/-- A parsed document with a paragraph but no span anywhere. -/
def noSpanDoc : Node := .elem "html" [.elem "p" [.text "hi"]]

/-- A file that parses into `noSpanDoc`. -/
def noSpanFile : SrcFile := ⟨"a.txt", .ok noSpanDoc⟩

/-- C1: the claim reads the filter of `main.py` line 100 as selecting
exactly the `p`/`div` elements containing a span.  The code's lambda
`(x.name == 'p' or 'div') and x.find('span')` is always truthy in its
first conjunct, so it selects every element containing a span: on a
document whose only span sits inside a `td`, the code matches the `html`
and `td` elements and extracts their text twice, while no element of the
document satisfies the spec's narrow predicate, so under the claim the
file would contribute no text. -/
theorem span_filter_matches_every_tag_with_span :
    tagFilter tdSpanNode = true ∧
    tdSpanNode.name ≠ some "p" ∧
    tdSpanNode.name ≠ some "div" ∧
    (tagsIncl tdDoc).filter specTagFilter = [] ∧
    fileExtract tdDoc = "x x" ∧
    fileExtract tdDoc ≠ "" := by
  refine ⟨rfl, by decide, by decide, rfl, rfl, by decide⟩

/-- C2: a per-file parse failure never changes the combined document
(dropping all failing files first gives the same result, so failures are
skipped and the remaining files still processed), and each failing file
produces exactly one log record, at warning level for the
not-an-XBRL-document and malformed-structure shapes and at error level
for the unexpected shape. -/
theorem per_file_parse_failures_skip_and_continue
    (dirs : List (List SrcFile)) :
    (combine_documents dirs).1 =
      (combine_documents (dirs.map (List.filter (fun f => f.parse.isOk)))).1 ∧
    (combine_documents dirs).2 = dirs.flatten.flatMap (fun f =>
      match f.parse with
      | .ok _ => []
      | .errXBRL => [⟨.warning,
          "Skipped document [" ++ f.source ++ "]: is not a XBRL document"⟩]
      | .errIndex m => [⟨.warning,
          "Skipped document [" ++ f.source ++ "]: is not a valid XBRL document. " ++ m⟩]
      | .errOther _ => [⟨.error,
          "Failed to parse document [" ++ f.source ++ "]"⟩]) := by
  constructor
  · rw [combine_documents_eq, combine_documents_eq, flatten_map_filter,
      filterMap_extractOk_filter]
  · rw [combine_documents_eq]
    have h : fileLog = (fun f : SrcFile =>
        match f.parse with
        | .ok _ => ([] : List LogEntry)
        | .errXBRL => [⟨.warning,
            "Skipped document [" ++ f.source ++ "]: is not a XBRL document"⟩]
        | .errIndex m => [⟨.warning,
            "Skipped document [" ++ f.source ++ "]: is not a valid XBRL document. " ++ m⟩]
        | .errOther _ => [⟨.error,
            "Failed to parse document [" ++ f.source ++ "]"⟩]) := by
      funext f
      cases hp : f.parse <;> simp [fileLog, hp]
    rw [← h]

/-- C3 counterexample: two files that parse successfully but match no
element each contribute an empty extracted text, and the combiner joins
them into the two-character text of one blank-line separator — so an
input in which no file yields any extracted text can still produce a
nonempty combined text. -/
theorem empty_extracts_give_separator_only_text :
    fileExtract noSpanDoc = "" ∧
    (combine_documents [[noSpanFile, noSpanFile]]).1.page_content = "\n\n" ∧
    (combine_documents [[noSpanFile, noSpanFile]]).1.page_content ≠ "" := by
  refine ⟨rfl, rfl, by decide⟩

/-- C3 amended: for every input directory set containing zero parseable
structured-markup files (every enumerated file fails to parse), the
combiner returns a `Document` whose text is the empty string, and it
never fails. -/
theorem no_parseable_file_gives_empty_text (dirs : List (List SrcFile))
    (h : ∀ f ∈ dirs.flatten, f.parse.isOk = false) :
    (combine_documents dirs).1.page_content = "" := by
  rw [combine_documents_eq]
  have hnil : dirs.flatten.filterMap extractOk = [] := by
    rw [List.filterMap_eq_nil_iff]
    intro f hf
    have hko := h f hf
    cases hp : f.parse
    case ok doc => simp [hp, ParseResult.isOk] at hko
    all_goals simp [extractOk, hp]
  rw [hnil]
  rfl

/-- C3 amended, witness at a one-directory, one-unparseable-file input. -/
theorem no_parseable_file_gives_empty_text_witness :
    (∀ f ∈ ([[⟨"b.txt", .errXBRL⟩]] : List (List SrcFile)).flatten,
        f.parse.isOk = false) ∧
    (combine_documents [[⟨"b.txt", .errXBRL⟩]]).1.page_content = "" := by
  have h : ∀ f ∈ ([[⟨"b.txt", .errXBRL⟩]] : List (List SrcFile)).flatten,
      f.parse.isOk = false := by
    intro f hf
    simp at hf
    rw [hf]
    rfl
  exact ⟨h, no_parseable_file_gives_empty_text _ h⟩

/-- C4: the combiner's output text equals the per-file extracted texts
joined by a blank-line separator, files taken in enumeration order
across the input directories in input order, where one file's extracted
text is the visible text of its matched elements joined by single
spaces. -/
theorem combined_text_is_ordered_join (dirs : List (List SrcFile)) :
    (combine_documents dirs).1.page_content =
      String.intercalate "\n\n" (dirs.flatten.filterMap (fun f =>
        match f.parse with
        | .ok doc => some (String.intercalate " "
            (((tagsIncl doc).filter tagFilter).map getText))
        | _ => none)) := by
  rw [combine_documents_eq]
  have h : extractOk = (fun f : SrcFile =>
      match f.parse with
      | .ok doc => some (String.intercalate " "
          (((tagsIncl doc).filter tagFilter).map getText))
      | _ => none) := by
    funext f
    cases hp : f.parse <;> simp [extractOk, fileExtract, hp]
  rw [h]

/-! ## Metadata store (`store.py`)

The `DownloadedDocs` table is a list of rows in rowid order.  The
`UNIQUE(ticker, doc_type) ON CONFLICT REPLACE` constraint makes an
insert delete any row with the same (ticker, doc_type) pair before the
new row is appended; `updated_at` defaults to the current timestamp,
taken here as an explicit parameter. -/

structure DocRow where
  id : Nat
  ticker : String
  doc_type : String
  dir_path : String
  updated_at : Nat
deriving DecidableEq

/-- Rowid assigned to a fresh insert: one past the largest in use. -/
def freshId (tbl : List DocRow) : Nat :=
  tbl.foldl (fun m r => max m r.id) 0 + 1

/-- The `SELECT *` column order of a row: id, ticker, doc_type,
dir_path, updated_at. -/
def DocRow.cells (r : DocRow) : List String :=
  [toString r.id, r.ticker, r.doc_type, r.dir_path, toString r.updated_at]

/-- The embedding of `save_info` (`store.py` lines 51-54): an `INSERT`
into `DownloadedDocs`, whose `ON CONFLICT REPLACE` uniqueness constraint
first deletes any row with the same (ticker, doc_type). -/
def save_info (tbl : List DocRow) (now : Nat)
    (ticker doc_type save_dir : String) : List DocRow :=
  let kept := tbl.filter (fun r => !(r.ticker == ticker && r.doc_type == doc_type))
  kept ++ [{ id := freshId kept, ticker := ticker, doc_type := doc_type,
             dir_path := save_dir, updated_at := now }]

/-- The embedding of `get_info` (`store.py` lines 57-65): all rows for
the ticker, narrowed to one doc_type when it is given. -/
def get_info (tbl : List DocRow) (ticker : String) (doc_type : Option String) :
    List DocRow :=
  match doc_type with
  | none => tbl.filter (fun r => r.ticker == ticker)
  | some d => tbl.filter (fun r => r.ticker == ticker && r.doc_type == d)

/-- Two rows clash when they carry the same (ticker, doc_type) pair. -/
def clash (a b : DocRow) : Prop := a.ticker = b.ticker ∧ a.doc_type = b.doc_type

/-- At most one live row per (ticker, doc_type) pair. -/
def uniquePairs (tbl : List DocRow) : Prop :=
  tbl.Pairwise (fun a b => ¬ clash a b)

lemma filter_not_then_filter {α : Type} (p : α → Bool) (l : List α) :
    (l.filter (fun a => !p a)).filter p = [] := by
  induction l with
  | nil => rfl
  | cons a l ih =>
      cases h : p a <;> simp [List.filter_cons, h, ih]

lemma get_info_save_info (tbl : List DocRow) (now : Nat) (t d p : String) :
    get_info (save_info tbl now t d p) t (some d) =
      [{ id := freshId
            (tbl.filter (fun r => !(r.ticker == t && r.doc_type == d))),
         ticker := t, doc_type := d, dir_path := p, updated_at := now }] := by
  simp only [get_info, save_info]
  rw [List.filter_append,
    filter_not_then_filter (fun r : DocRow => r.ticker == t && r.doc_type == d)]
  simp

lemma save_info_preserves_unique (tbl : List DocRow) (now : Nat)
    (t d p : String) (h : uniquePairs tbl) :
    uniquePairs (save_info tbl now t d p) := by
  unfold uniquePairs save_info
  rw [List.pairwise_append]
  refine ⟨h.filter _, List.pairwise_singleton _ _, ?_⟩
  intro a ha b hb hc
  simp only [List.mem_singleton] at hb
  subst hb
  have hkeep := (List.mem_filter.mp ha).2
  rcases hc with ⟨h1, h2⟩
  simp only [h1, h2] at hkeep
  simp at hkeep

lemma foldl_save_unique (ops : List (Nat × String × String × String))
    (tbl : List DocRow) (h : uniquePairs tbl) :
    uniquePairs (ops.foldl
      (fun tbl o => save_info tbl o.1 o.2.1 o.2.2.1 o.2.2.2) tbl) := by
  induction ops generalizing tbl with
  | nil => exact h
  | cons o ops ih => exact ih _ (save_info_preserves_unique _ _ _ _ _ h)

/-- C5: starting from the freshly created (empty) table, any sequence of
`save_info` operations leaves at most one row per (ticker, doc_type)
pair, and saving `/p1` then `/p2` for (AAPL, 10-K) — from any prior
table — leaves exactly one (AAPL, 10-K) record, carrying `/p2`. -/
theorem store_unique_per_ticker_doctype :
    (∀ ops : List (Nat × String × String × String),
      uniquePairs (ops.foldl
        (fun tbl o => save_info tbl o.1 o.2.1 o.2.2.1 o.2.2.2) [])) ∧
    (∀ (tbl : List DocRow) (now1 now2 : Nat),
      (get_info (save_info (save_info tbl now1 "AAPL" "10-K" "/p1")
          now2 "AAPL" "10-K" "/p2") "AAPL" (some "10-K")).map
        (fun r => (r.ticker, r.doc_type, r.dir_path)) =
      [("AAPL", "10-K", "/p2")]) := by
  constructor
  · intro ops
    exact foldl_save_unique ops [] (List.Pairwise.nil)
  · intro tbl now1 now2
    rw [get_info_save_info]
    rfl

/-- C10: on the store, a `save_info` followed by `get_info` for the same
(ticker, doc_type) returns a non-empty row list whose first row carries
the saved directory path at tuple position 3 of the (id, ticker,
doc_type, dir_path, updated_at) layout — the round-trip `pipeline` relies
on when it reads `get_info(ticker, doc_type)[0][3]`. -/
theorem save_then_get_roundtrip (tbl : List DocRow) (now : Nat)
    (t d p : String) :
    get_info (save_info tbl now t d p) t (some d) ≠ [] ∧
    (get_info (save_info tbl now t d p) t (some d)).head?.map
      (fun r => r.cells.get? 3) = some (some p) := by
  rw [get_info_save_info]
  exact ⟨by simp, rfl⟩

/-! ## Store connection lifecycle (`store.py` lines 11-34) -/

/-- A raised Python-level error. -/
inductive PyError where
  | attributeError (msg : String)
deriving DecidableEq

/-- Process-wide store state: whether `_store_connection` is set, and
the table contents. -/
structure StoreState where
  conn : Bool
  table : List DocRow

/-- The embedding of `close_store_conn` (`store.py` lines 29-34),
returning what it prints and how it ends.  When the connection is open
it is closed and the global reset.  When `_store_connection` is already
`None`, the function prints its already-closed message but does not
return: it falls through to `_store_connection.close()`, which raises
`AttributeError` on `None`. -/
def close_store_conn (st : StoreState) : List String × Except PyError StoreState :=
  if st.conn then
    ([], .ok { st with conn := false })
  else
    (["store connection already closed"],
     .error (.attributeError "NoneType object has no attribute close"))

/-- C8: calling close on an already-closed store does not return
normally — it prints (rather than logs) its warning message and then
raises `AttributeError` by invoking `.close()` on `None`. -/
theorem close_already_closed_raises :
    (close_store_conn { conn := false, table := [] }).1 =
      ["store connection already closed"] ∧
    (close_store_conn { conn := false, table := [] }).2 =
      .error (.attributeError "NoneType object has no attribute close") :=
  ⟨rfl, rfl⟩

/-! ## Filing retriever (`download_documents`, `main.py` lines 29-63) -/

/-- Python's `str.upper()` on the ASCII strings used for tickers and
document types. -/
def pyUpper (s : String) : String := (s.toList.map Char.toUpper).asString

/-- Outcome of the external `Downloader.get` call. -/
inductive DlResult where
  | ok
  | err (e : String)

/-- A wrapping exception raised with `raise Exception(msg) from e`: its
message together with the original failure it is chained from. -/
structure WrappedError where
  message : String
  cause : String
deriving DecidableEq

/-- The embedding of `download_documents`: the ticker is uppercased, the
external client is invoked, any client failure is wrapped and re-raised
chained from the original, and on success the deterministic directory
path is returned. -/
def download_documents (ticker doc_type save_dir : String) (dl : DlResult) :
    Except WrappedError String :=
  let t := pyUpper ticker
  match dl with
  | .ok => .ok (save_dir ++ "/sec-edgar-filings/" ++ t ++ "/" ++ doc_type ++ "/")
  | .err e => .error
      { message := "Failed to fetch document for " ++ t ++ " from Edgar database"
      , cause := e }

/-- Containment of one string in another as a contiguous substring. -/
def containsStr (hay needle : String) : Bool :=
  (List.range (hay.length + 1)).any
    (fun i => needle.toList.isPrefixOf (hay.toList.drop i))

/-- C7 counterexample: for ticker AAPL and doc type 10-K, a failing
retrieval is wrapped into an error whose message names the ticker but
nowhere names the document type. -/
theorem wrap_error_omits_doc_type :
    download_documents "AAPL" "10-K" "/tmp" (.err "network down") =
      .error { message := "Failed to fetch document for AAPL from Edgar database",
               cause := "network down" } ∧
    containsStr "Failed to fetch document for AAPL from Edgar database"
      "AAPL" = true ∧
    containsStr "Failed to fetch document for AAPL from Edgar database"
      "10-K" = false := by
  refine ⟨rfl, by decide, by decide⟩

/-- C7 amended: every retrieval client failure is wrapped into a single
error, chained from the original failure, whose message names the
(uppercased) ticker — but not the document type. -/
theorem wrap_error_names_ticker_and_chains
    (ticker doc_type save_dir e : String) :
    download_documents ticker doc_type save_dir (.err e) =
      .error { message := "Failed to fetch document for " ++ pyUpper ticker ++
                 " from Edgar database",
               cause := e } := rfl

/-! ## Run handler (`main`, `main.py` lines 183-198) -/

/-- How the `pipeline` call inside the `try` block ends: normally, with
a non-interrupt exception, or with a `KeyboardInterrupt`. -/
inductive PipelineOutcome where
  | success
  | failure (msg : String)
  | interrupt

/-- How `main` hands control back: a normal return, or a process exit
via `exit(0)`. -/
inductive ExitKind where
  | returned
  | processExit (code : Nat)
deriving DecidableEq

/-- Observable result of one `main` run: the exit shape, everything
printed, the log records, and the store state after the `finally`
block. -/
structure MainResult where
  exitKind : ExitKind
  printed : List String
  logs : List LogEntry
  storeAfterTeardown : Except PyError StoreState

/-- The embedding of `init_store` (`store.py` lines 15-17): the
connection is opened and the table ensured, keeping whatever rows the
backing file already holds. -/
def init_store (tbl : List DocRow) : StoreState := { conn := true, table := tbl }

/-- The embedding of `main` (`main.py` lines 183-198).  The pipeline
body is abstracted by its effect on the table and by its outcome; the
`try/except/finally` semantics is explicit: a `KeyboardInterrupt` is
answered by `exit(0)` (a pending `SystemExit`), any other exception is
caught and logged with ticker/doc-type context, and in every case the
`finally` block closes the store connection and logs `Exit` before
control leaves `main`. -/
def mainRun (ticker doctype : String) (tbl0 : List DocRow)
    (effect : List DocRow → List DocRow) (outcome : PipelineOutcome) :
    MainResult :=
  let t := pyUpper ticker
  let d := pyUpper doctype
  let st0 := init_store tbl0
  let stMid : StoreState := { st0 with table := effect st0.table }
  let handled : ExitKind × List LogEntry :=
    match outcome with
    | .success => (.returned, [])
    | .failure _ => (.returned,
        [⟨.error, "Problem executing the pipeline for " ++ t ++ " " ++ d⟩])
    | .interrupt => (.processExit 0, [])
  let fin := close_store_conn stMid
  { exitKind := handled.1
  , printed := fin.1
  , logs := handled.2 ++ [⟨.info, "Exit"⟩]
  , storeAfterTeardown := fin.2 }

/-- C9: for every run, the store connection is closed by the `finally`
block whatever the pipeline's outcome — on success, on a caught
non-interrupt error (which is logged with ticker and doc-type context
and not re-raised), and on an interrupt (which exits the process) —
before `main` returns or the process exits. -/
theorem teardown_always_runs (ticker doctype : String) (tbl0 : List DocRow)
    (effect : List DocRow → List DocRow) :
    (∀ outcome, ∃ st,
      (mainRun ticker doctype tbl0 effect outcome).storeAfterTeardown =
        .ok st ∧ st.conn = false) ∧
    (mainRun ticker doctype tbl0 effect .success).exitKind = .returned ∧
    (∀ m, (mainRun ticker doctype tbl0 effect (.failure m)).exitKind =
        .returned ∧
      (⟨.error, "Problem executing the pipeline for " ++ pyUpper ticker ++
          " " ++ pyUpper doctype⟩ : LogEntry) ∈
        (mainRun ticker doctype tbl0 effect (.failure m)).logs) ∧
    (mainRun ticker doctype tbl0 effect .interrupt).exitKind =
      .processExit 0 := by
  refine ⟨fun outcome => ?_, rfl, fun m => ⟨rfl, ?_⟩, rfl⟩
  · exact ⟨_, rfl, rfl⟩
  · simp [mainRun]

/-! ## Chunker (`split_documents`, `main.py` lines 108-121)

`split_documents` delegates to langchain's
`RecursiveCharacterTextSplitter(chunk_size=1200, chunk_overlap=20)`;
the splitting algorithm itself is external library code, not part of
this repository, and is modelled below from the spec. -/

/-- Maximum chunk length fixed by `split_documents`. -/
def CHUNK_SIZE : Nat := 1200

/-- Overlap between consecutive chunks fixed by `split_documents`. -/
def CHUNK_OVERLAP : Nat := 20

/-- Reattach a separator to every piece except the last, so the pieces
concatenate back to the original text. -/
def reattach (sep : String) : List String → List String
  | [] => []
  | [p] => [p]
  | p :: ps => (p ++ sep) :: reattach sep ps

/-- Split on every occurrence of a separator, keeping each separator at
the end of its left piece. -/
def splitKeep (sep : String) (text : String) : List String :=
  reattach sep (text.splitOn sep)

/-- Character windows of at most `CHUNK_SIZE` characters advancing by
`CHUNK_SIZE - CHUNK_OVERLAP`: the raw-characters fallback of the
recursive splitter. -/
def slideChunks (cs : List Char) : List (List Char) :=
  if _h : cs.length ≤ CHUNK_SIZE then [cs]
  else cs.take CHUNK_SIZE :: slideChunks (cs.drop (CHUNK_SIZE - CHUNK_OVERLAP))
termination_by cs.length
decreasing_by
  simp only [List.length_drop, CHUNK_SIZE, CHUNK_OVERLAP] at _h ⊢
  omega

/-- Modelled from the spec: the recursive decomposition of §4.4 (the
langchain splitter is not in `src/`).  A text of at most `CHUNK_SIZE`
characters stands as one piece; a longer text is split on the coarsest
separator first — paragraph breaks, then line breaks, then spaces — and
pieces still too long fall through to the finer separators, down to raw
character windows. -/
def atoms (seps : List String) (text : String) : List String :=
  if text.length ≤ CHUNK_SIZE then [text]
  else
    match seps with
    | [] => (slideChunks text.toList).map List.asString
    | sep :: rest =>
        (splitKeep sep text).flatMap
          (fun p => if p.length ≤ CHUNK_SIZE then [p] else atoms rest p)
termination_by seps.length
decreasing_by simp

/-- Joined length of a window of pieces. -/
def totalLen (w : List String) : Nat := (w.map String.length).sum

/-- Drop pieces from the front of the window until at most `limit`
characters remain: the tail kept is the overlap carried into the next
chunk. -/
def shrinkTo (limit : Nat) : List String → List String
  | [] => []
  | a :: rest =>
      if totalLen (a :: rest) ≤ limit then a :: rest else shrinkTo limit rest

/-- Modelled from the spec: greedy merging of consecutive pieces into
chunks of at most `CHUNK_SIZE` characters; when a chunk is emitted, a
tail of at most `CHUNK_OVERLAP` characters of its pieces is retained to
start the next chunk, giving the fixed overlap between consecutive
chunks. -/
def mergeLoop : List String → List String → List String
  | [], w => if w.isEmpty then [] else [String.join w]
  | a :: rest, w =>
      if totalLen (w ++ [a]) ≤ CHUNK_SIZE then mergeLoop rest (w ++ [a])
      else (if w.isEmpty then [] else [String.join w]) ++
        mergeLoop rest (shrinkTo CHUNK_OVERLAP w ++ [a])

/-- Modelled from the spec: the Chunker (§4.4).  Splits one text into an
ordered sequence of chunks of at most 1200 characters with a
20-character overlap between consecutive chunks, preferring paragraph
breaks, then line breaks, then spaces, then raw characters; empty input
text yields an empty chunk sequence. -/
def splitText (text : String) : List String :=
  if text.isEmpty then []
  else mergeLoop (atoms ["\n\n", "\n", " "] text) []

/-- The embedding of `split_documents` (`main.py` lines 108-121): split
each document's text and wrap every chunk as a `Document` carrying the
source document's metadata. -/
def split_documents (docs : List Document) : List Document :=
  docs.flatMap (fun d =>
    (splitText d.page_content).map
      (fun t => { page_content := t, metadata := d.metadata }))

/-- C6 counterexample: the empty string is strictly shorter than 1200
characters, yet the chunker returns no chunk at all for it — not one
chunk equal to the input (the spec itself says empty input text yields
an empty chunk sequence). -/
theorem empty_text_yields_no_chunks :
    ("" : String).length < 1200 ∧
    split_documents [{ page_content := "", metadata := [] }] = [] ∧
    split_documents [{ page_content := "", metadata := [] }] ≠
      [{ page_content := "", metadata := [] }] := by
  refine ⟨by decide, rfl, by decide⟩

/-- C6 amended: re-chunking a nonempty text strictly shorter than the
1200-character maximum yields exactly one chunk equal to the text
itself. -/
theorem rechunk_short_nonempty_text_identity (text : String)
    (h1 : text ≠ "") (h2 : text.length < 1200) :
    split_documents [{ page_content := text, metadata := [] }] =
      [{ page_content := text, metadata := [] }] := by
  have hne : text.isEmpty = false := by
    cases he : text.isEmpty
    · rfl
    · exact absurd ((String.isEmpty_iff text).mp he) h1
  have hlen : text.length ≤ CHUNK_SIZE := by
    simp only [CHUNK_SIZE]
    omega
  have hat : atoms ["\n\n", "\n", " "] text = [text] := by
    rw [atoms]
    simp [hlen]
  have htot : totalLen [text] ≤ CHUNK_SIZE := by
    simpa [totalLen] using hlen
  simp [split_documents, splitText, hne, hat, mergeLoop, htot,
    String.join]

/-- C6 amended, witness at the five-character text `hello`. -/
theorem rechunk_short_nonempty_text_identity_witness :
    (("hello" : String) ≠ "" ∧ ("hello" : String).length < 1200) ∧
    split_documents [{ page_content := "hello", metadata := [] }] =
      [{ page_content := "hello", metadata := [] }] :=
  ⟨⟨by decide, by decide⟩,
   rechunk_short_nonempty_text_identity "hello" (by decide) (by decide)⟩

end SecPipeline
